import Mathlib

/-
Verification of the autoplay bot in src/autoplay/autoplay.js.

The development shallowly embeds the four parts of the bot:
the decision policy (function react), the debounce scheduler inside the
message handler, the connection lifecycle (close, connect-failed and the
reconnect helper) and the bootstrapper (function main).
Machine randomness is passed in explicitly, JS exceptions are modelled with
Except, and setTimeout handles are modelled as Option values holding the
scheduled fire time.
-/

/-- One entry of the snapshot roster: the code reads the fields id and name
of players[i]. -/
structure Player where
  id : String
  name : String
deriving DecidableEq, Repr

/-- The prompt descriptor data.state.action. In JS it is an object whose
fields depend on the kind; here every field the code ever reads is present. -/
structure GAction where
  type : String
  canStart : Bool
  players : List Nat
  canVeto : Bool
  cards : List String
  player : Nat
  party : String
deriving DecidableEq, Repr

/-- The snapshot data.state: the code destructures action, players and role. -/
structure GameState where
  action : Option GAction
  players : List Player
  role : String
deriving DecidableEq, Repr

/-- The value returned by react: a sentinel or id string, a boolean vote,
a veto object or a discard object. -/
inductive Reply where
  | str : String → Reply
  | bool : Bool → Reply
  | veto : Reply
  | discard : Nat → Reply
deriving DecidableEq, Repr

/-- Explicit randomness for the two kinds of draws the code makes:
coin stands for one draw of Math.random() compared with 0.5, and pick
drives Math.floor applied to Math.random() times a length. -/
structure Rng where
  coin : Bool
  pick : Nat
deriving DecidableEq, Repr

/-- JS exceptions the embedded code can raise. -/
inductive JsError where
  | typeError : JsError
  | parseError : JsError
deriving DecidableEq, Repr

/-- Result of one react call: the returned reply (none when the function
returns undefined) together with the console lines it printed. -/
structure ReactOut where
  reply : Option Reply
  logs : List String
deriving DecidableEq, Repr

/-- Semantics of Math.floor of Math.random() times n: any value below n
when n is positive, and exactly 0 when n is 0. -/
def mathRandomFloor (pick n : Nat) : Nat :=
  if n = 0 then 0 else pick % n

/-- The branch chain of function react after the null check, over the
destructured action and players. Traced branch by branch from
src/autoplay/autoplay.js lines 59 to 99. -/
def reactAct (act : GAction) (roster : List Player) (index : Nat) (rng : Rng) :
    Except JsError ReactOut :=
  if act.type = "lobby" then
    Except.ok ⟨if act.canStart then some (Reply.str "start") else none, []⟩
  else if act.type = "nightRound" then
    Except.ok ⟨some (Reply.str "done"), []⟩
  else if act.type = "choosePlayer" then
    match act.players.get? (mathRandomFloor rng.pick act.players.length) with
    | none => Except.error JsError.typeError
    | some choice =>
      match roster.get? choice with
      | none => Except.error JsError.typeError
      | some p => Except.ok ⟨some (Reply.str p.id), []⟩
  else if act.type = "vote" then
    Except.ok ⟨some (Reply.bool (index % 2 == 0)), []⟩
  else if act.type = "legislative" then
    if act.canVeto && rng.coin then
      Except.ok ⟨some Reply.veto, []⟩
    else
      Except.ok ⟨some (Reply.discard (mathRandomFloor rng.pick act.cards.length)), []⟩
  else if act.type = "nextRound" then
    Except.ok ⟨some (Reply.str "next"), []⟩
  else if act.type = "policyPeak" then
    Except.ok ⟨some (Reply.str "done"), []⟩
  else if act.type = "investigateParty" then
    match roster.get? act.player with
    | none => Except.error JsError.typeError
    | some p => Except.ok ⟨some (Reply.str "done"), [p.name ++ " is a " ++ act.party]⟩
  else if act.type = "vetoConsent" then
    Except.ok ⟨some (Reply.bool rng.coin), []⟩
  else if act.type = "gameover" then
    Except.ok ⟨some (Reply.str "restart"), []⟩
  else
    Except.ok ⟨none, ["Unknown action type: " ++ act.type]⟩

/-- Function react of src/autoplay/autoplay.js: destructure the snapshot
and return undefined when action is null. -/
def react (g : GameState) (index : Nat) (rng : Rng) : Except JsError ReactOut :=
  match g.action with
  | none => Except.ok ⟨none, []⟩
  | some act => reactAct act g.players index rng

/-- The debounce delay ACTION_DELAY of src/autoplay/autoplay.js. -/
def ACTION_DELAY : Nat := 3000

/-- The reconnect delay passed to setTimeout in the reconnect helper. -/
def RECONNECT_DELAY : Nat := 5000

/-- Advance the pending decision timer to the moment an event at time t is
handled: a due timer has already fired (its snapshot was evaluated by the
policy) and is spent; a timer due later is still pending. -/
def fireDue (p : Option (Nat × GameState)) (t : Nat) :
    List GameState × Option (Nat × GameState) :=
  match p with
  | none => ([], none)
  | some fg => if fg.1 ≤ t then ([fg.2], none) else ([], some fg)

/-- The update branch of the message handler: clearTimeout on the previous
handle (argument p, discarded) followed by setTimeout of the policy
evaluation ACTION_DELAY after now. -/
def onUpdate (_p : Option (Nat × GameState)) (now : Nat) (g : GameState) :
    Option (Nat × GameState) :=
  some (now + ACTION_DELAY, g)

/-- Run a time-stamped stream of update snapshots through the scheduler:
before each arrival any due timer fires, then the arrival cancels and
replaces the pending timer. Returns the snapshots evaluated during the
stream and the timer still pending at the end. -/
def runBurst : Option (Nat × GameState) → List (Nat × GameState) →
    List GameState × Option (Nat × GameState)
  | p, [] => ([], p)
  | p, e :: rest =>
    let fd := fireDue p e.1
    let next := runBurst (onUpdate fd.2 e.1 e.2) rest
    (fd.1 ++ next.1, next.2)

/-- The timer left pending after the stream goes quiet eventually fires and
its snapshot is evaluated. -/
def flushPending (p : Option (Nat × GameState)) : List GameState :=
  match p with
  | none => []
  | some fg => [fg.2]

/-- All snapshots on which the decision policy is invoked, in order, for a
stream of update arrivals starting with no pending timer. -/
def evaluated (evts : List (Nat × GameState)) : List GameState :=
  (runBurst none evts).1 ++ flushPending (runBurst none evts).2

/-- An inbound frame that JSON.parse accepts, classified by its type tag
the way the message handler tests it. -/
inductive InMsg where
  | error : String → InMsg
  | update : GameState → InMsg
  | other : String → InMsg
deriving DecidableEq, Repr

/-- The message handler of createPlayer, src/autoplay/autoplay.js lines 30
to 43. The argument raw is none when the frame is not valid JSON, in which
case JSON.parse raises. Otherwise: an error tag is logged and ignored, any
tag other than update returns with the timer untouched, and an update
cancels and replaces the pending decision timer. Returns the new timer and
the console lines. -/
def messageHandler (now : Nat) (raw : Option InMsg)
    (timer : Option (Nat × GameState)) :
    Except JsError (Option (Nat × GameState) × List String) :=
  match raw with
  | none => Except.error JsError.parseError
  | some (InMsg.error e) => Except.ok (timer, ["Error: " ++ e])
  | some (InMsg.other _) => Except.ok (timer, [])
  | some (InMsg.update g) => Except.ok (onUpdate timer now g, [])

/-- Per-connection lifecycle state: whether the transport is open, the
pending decision timer of this connection, and the reconnect timer. -/
structure ConnLife where
  connected : Bool
  decisionTimer : Option (Nat × GameState)
  reconnTimer : Option Nat
deriving DecidableEq, Repr

/-- The reconnect helper of createPlayer: clearTimeout on the previous
reconnect handle, then setTimeout of connect RECONNECT_DELAY from now. -/
def reconnect (now : Nat) (_r : Option Nat) : Option Nat :=
  some (now + RECONNECT_DELAY)

/-- The close event: the transport drops, and the registered handler is the
reconnect helper, which touches only the reconnect timer. -/
def onCloseEv (now : Nat) (s : ConnLife) : ConnLife :=
  ⟨false, s.decisionTimer, reconnect now s.reconnTimer⟩

/-- The connectFailed event: the same reconnect helper is the handler. -/
def onConnectFailedEv (now : Nat) (r : Option Nat) : Option Nat :=
  reconnect now r

/-- One call of conn.send made by the decision timer callback: the action
tag and reply of the player_action message, and whether the transport was
still open when send was called (the library delivers only then). -/
structure SendAttempt where
  actionTag : Option String
  payload : Reply
  delivered : Bool
deriving DecidableEq, Repr

/-- The decision timer callback of the message handler firing on state s:
a cancelled (absent) timer never runs; otherwise react is evaluated on the
stored snapshot and, unless it returns null, conn.send is called on this
connection whether or not it is still open. -/
def fireDecision (s : ConnLife) (index : Nat) (rng : Rng) :
    Except JsError (ConnLife × List SendAttempt) :=
  match s.decisionTimer with
  | none => Except.ok (s, [])
  | some fg =>
    match react fg.2 index rng with
    | Except.error e => Except.error e
    | Except.ok out =>
      match out.reply with
      | none => Except.ok (⟨s.connected, none, s.reconnTimer⟩, [])
      | some r =>
        Except.ok (⟨s.connected, none, s.reconnTimer⟩,
          [⟨Option.map GAction.type fg.2.action, r, s.connected⟩])

/-- The join announcement built in the connect handler:
JSON.stringify of the object with fields type, gameId and name. -/
def joinMessage (gameId name : String) : List (String × String) :=
  [("type", "player_join"), ("gameId", gameId), ("name", name)]

/-- The connect handler: the timer variable starts undefined, the transport
is open, and exactly the join announcement is sent synchronously. -/
def onConnectEv (r : Option Nat) (gameId name : String) :
    ConnLife × List (List (String × String)) :=
  (⟨true, none, r⟩, [joinMessage gameId name])

/-- The character class of the regular expression, code points 65 to 90. -/
def isUpperChar (c : Char) : Bool :=
  65 ≤ c.toNat && c.toNat ≤ 90

/-- Semantics of the unanchored test of the regular expression of four
uppercase letters: some window of four consecutive characters, anywhere in
the list, lies in the class. -/
def hasFourUpperRun : List Char → Bool
  | a :: b :: c :: d :: rest =>
    (isUpperChar a && isUpperChar b && isUpperChar c && isUpperChar d) ||
      hasFourUpperRun (b :: c :: d :: rest)
  | _ => false

/-- The game id test performed by main in src/autoplay/autoplay.js. -/
def regexTestFourUpper (s : String) : Bool :=
  hasFourUpperRun s.data

/-- Modelled from the spec: the anchored pattern the spec describes, four
uppercase letters at the start of the string. Stated only to compare the
spec against the test the code performs. -/
def specAnchoredFourUpper (s : String) : Bool :=
  match s.data with
  | a :: b :: c :: d :: _ =>
    isUpperChar a && isUpperChar b && isUpperChar c && isUpperChar d
  | _ => false

/-- The roster of display names hard-coded in main. -/
def playersRoster : List String :=
  ["ALEX", "BOB", "CHARLIE", "DAVID", "ED", "FRED", "GEORGE", "HARRY", "IJ"]

/-- The spawn loop of main: createPlayer with a running index, then a 200 ms
wait, so agent i is spawned at time 200 times i. Each triple is the display
name, the ordinal index and the spawn time. -/
def spawnAgents : List String → Nat → List (String × Nat × Nat)
  | [], _ => []
  | n :: rest, i => (n, i, 200 * i) :: spawnAgents rest (i + 1)

/-- Function main: abort the whole pool (none) when the game id fails the
regular expression test, otherwise spawn one staggered agent per name. -/
def mainRun (gameId : String) : Option (List (String × Nat × Nat)) :=
  if regexTestFourUpper gameId then some (spawnAgents playersRoster 0) else none

/-- Concrete snapshots and inputs used by the closed theorems below. -/
def rng0 : Rng := ⟨false, 0⟩

def actNight : GAction := ⟨"nightRound", false, [], false, [], 0, ""⟩

def gNight : GameState := ⟨some actNight, [], ""⟩

def actEmptyChoose : GAction := ⟨"choosePlayer", false, [], false, [], 0, ""⟩

def gEmptyChoose : GameState := ⟨some actEmptyChoose, [⟨"p0", "A"⟩], ""⟩

def c2State : ConnLife := ⟨true, some (4000, gNight), none⟩

def actChoose : GAction := ⟨"choosePlayer", false, [0, 1, 2], false, [], 0, ""⟩

def gChoose : GameState :=
  ⟨some actChoose, [⟨"p0", "A"⟩, ⟨"p1", "B"⟩, ⟨"p2", "C"⟩], ""⟩

def rngPick7 : Rng := ⟨false, 7⟩

def actBogus : GAction := ⟨"bogus", false, [], false, [], 0, ""⟩

def gBogus : GameState := ⟨some actBogus, [], ""⟩

def actVote : GAction := ⟨"vote", false, [], false, [], 0, ""⟩

def gVote : GameState := ⟨some actVote, [], ""⟩

def gA : GameState := ⟨none, [], "a"⟩

def gB : GameState := ⟨none, [], "b"⟩

/-- The message handler treats an update exactly as the scheduler step. -/
theorem messageHandler_update (now : Nat) (timer : Option (Nat × GameState))
    (g : GameState) :
    messageHandler now (some (InMsg.update g)) timer =
      Except.ok (onUpdate timer now g, []) := rfl

/-- Claim C3: the code contradicts the claim. On a choosePlayer prompt with
an empty candidate list, react indexes the roster with an undefined choice
and raises a TypeError instead of declining. -/
theorem C3_empty_choose_throws :
    react gEmptyChoose 0 rng0 = Except.error JsError.typeError := rfl

/-- Claim C2: the code contradicts the claim. Closing the connection does
not cancel the pending decision timer: the close handler only reschedules
the reconnect timer, the decision timer stays armed, and when it fires the
callback evaluates the policy and calls send on the dead connection. -/
theorem C2_close_keeps_timer :
    (onCloseEv 2000 c2State).decisionTimer = some (4000, gNight) ∧
    (onCloseEv 2000 c2State).connected = false ∧
    fireDecision (onCloseEv 2000 c2State) 0 rng0 =
      Except.ok (⟨false, none, some 7000⟩,
        [⟨some "nightRound", Reply.str "done", false⟩]) :=
  ⟨rfl, rfl, rfl⟩

/-- Claim C4, counterexample: a frame that is not valid JSON makes the
message handler raise in JSON.parse, so not every malformed inbound message
is ignored without throwing. -/
theorem C4_counterexample :
    messageHandler 0 none none = Except.error JsError.parseError := rfl

/-- Claim C4 as amended: every inbound frame that parses as JSON and whose
type tag is not update is logged (when the tag is error) or ignored, with
no exception, the pending decision timer left untouched, and no send. -/
theorem C4_nonupdate_ignored (now : Nat) (timer : Option (Nat × GameState))
    (e tag : String) :
    messageHandler now (some (InMsg.error e)) timer =
      Except.ok (timer, ["Error: " ++ e]) ∧
    messageHandler now (some (InMsg.other tag)) timer =
      Except.ok (timer, []) :=
  ⟨rfl, rfl⟩

/-- Claim C6, counterexample: the join announcement has no field named
sessionId; the session code travels under the field named gameId. -/
theorem C6_counterexample :
    List.lookup "sessionId" (joinMessage "ABCD" "ALEX") = none ∧
    List.lookup "gameId" (joinMessage "ABCD" "ALEX") = some "ABCD" :=
  ⟨rfl, rfl⟩

/-- Claim C6 as amended: immediately after every successful connect the
agent sends exactly one join announcement with type player_join, the
session code under the field gameId, the display name under name, and no
sessionId field. -/
theorem C6_join_message (r : Option Nat) (gid nm : String) :
    (onConnectEv r gid nm).2 = [joinMessage gid nm] ∧
    List.lookup "type" (joinMessage gid nm) = some "player_join" ∧
    List.lookup "gameId" (joinMessage gid nm) = some gid ∧
    List.lookup "name" (joinMessage gid nm) = some nm ∧
    List.lookup "sessionId" (joinMessage gid nm) = none :=
  ⟨rfl, rfl, rfl, rfl, rfl⟩

/-- Folding the reconnect helper over any nonempty run of failure times
leaves exactly one pending attempt, due a fixed delay after the last
failure. -/
theorem reconnect_foldl (ts : List Nat) : ∀ (t : Nat) (r : Option Nat),
    List.foldl (fun acc u => reconnect u acc) r (t :: ts) =
      some (List.getLastD ts t + RECONNECT_DELAY) := by
  induction ts with
  | nil => intro t r; simp [reconnect, List.getLastD]
  | cons u ts ih =>
    intro t r
    rw [List.foldl_cons]
    exact (List.getLastD_cons t u ts).symm ▸ ih u (reconnect t r)

/-- Claim C9: every transport close or connect failure, from any state,
leaves the agent disconnected with exactly one reconnect attempt pending a
fixed 5000 ms later; repeated failures reschedule the same single attempt
with the same delay, with no backoff growth and no cap. -/
theorem C9_reconnect_fixed_delay (now : Nat) (s : ConnLife) (r0 : Option Nat)
    (t : Nat) (ts : List Nat) :
    (onCloseEv now s).connected = false ∧
    (onCloseEv now s).reconnTimer = some (now + RECONNECT_DELAY) ∧
    onConnectFailedEv now r0 = some (now + RECONNECT_DELAY) ∧
    List.foldl (fun acc u => reconnect u acc) r0 (t :: ts) =
      some (List.getLastD ts t + RECONNECT_DELAY) ∧
    RECONNECT_DELAY = 5000 :=
  ⟨rfl, rfl, rfl, reconnect_foldl ts t r0, rfl⟩

/-- Claim C10: on a vote prompt the reply is the boolean saying whether the
agent index is even, whatever the snapshot and the randomness. -/
theorem C10_vote_parity (g : GameState) (idx : Nat) (rng : Rng) (act : GAction)
    (hact : g.action = some act) (htype : act.type = "vote") :
    react g idx rng = Except.ok ⟨some (Reply.bool (idx % 2 == 0)), []⟩ := by
  simp [react, reactAct, hact, htype]

/-- Witness for C10 at a concrete odd index. -/
theorem C10_vote_parity_witness :
    (gVote.action = some actVote ∧ actVote.type = "vote") ∧
    react gVote 1 rng0 = Except.ok ⟨some (Reply.bool (1 % 2 == 0)), []⟩ :=
  ⟨⟨rfl, rfl⟩, C10_vote_parity gVote 1 rng0 actVote rfl rfl⟩

/-- Claim C7: on a prompt whose kind is outside the recognized set, react
prints the unknown-kind diagnostic, returns no reply, and raises nothing. -/
theorem C7_unknown_kind (g : GameState) (idx : Nat) (rng : Rng) (act : GAction)
    (hact : g.action = some act)
    (hk : act.type ∉ (["lobby", "nightRound", "choosePlayer", "vote",
      "legislative", "nextRound", "policyPeak", "investigateParty",
      "vetoConsent", "gameover"] : List String)) :
    react g idx rng = Except.ok ⟨none, ["Unknown action type: " ++ act.type]⟩ := by
  simp only [List.mem_cons, List.not_mem_nil, or_false, not_or] at hk
  obtain ⟨h1, h2, h3, h4, h5, h6, h7, h8, h9, h10⟩ := hk
  simp [react, reactAct, hact, h1, h2, h3, h4, h5, h6, h7, h8, h9, h10]

/-- Witness for C7 at a concrete snapshot with kind bogus. -/
theorem C7_unknown_kind_witness :
    (gBogus.action = some actBogus ∧ actBogus.type ∉ (["lobby", "nightRound",
      "choosePlayer", "vote", "legislative", "nextRound", "policyPeak",
      "investigateParty", "vetoConsent", "gameover"] : List String)) ∧
    react gBogus 0 rng0 =
      Except.ok ⟨none, ["Unknown action type: " ++ actBogus.type]⟩ :=
  ⟨⟨rfl, by decide⟩, C7_unknown_kind gBogus 0 rng0 actBogus rfl (by decide)⟩

/-- Claim C8: on a choosePlayer prompt whose candidate list is nonempty and
whose candidates all index into the roster, the reply is the roster id of
one of the offered candidates, for every draw of randomness. -/
theorem C8_choose_in_list (g : GameState) (idx : Nat) (rng : Rng) (act : GAction)
    (hact : g.action = some act) (htype : act.type = "choosePlayer")
    (hne : act.players ≠ [])
    (hvalid : ∀ c ∈ act.players, c < g.players.length) :
    ∃ c ∈ act.players, ∃ p, g.players.get? c = some p ∧
      react g idx rng = Except.ok ⟨some (Reply.str p.id), []⟩ := by
  have hlen : 0 < act.players.length := List.length_pos.mpr hne
  have hidx : mathRandomFloor rng.pick act.players.length < act.players.length := by
    unfold mathRandomFloor
    rw [if_neg (Nat.pos_iff_ne_zero.mp hlen)]
    exact Nat.mod_lt _ hlen
  have hget : act.players.get? (mathRandomFloor rng.pick act.players.length) =
      some (act.players.get ⟨mathRandomFloor rng.pick act.players.length, hidx⟩) :=
    List.get?_eq_get hidx
  have hcmem : act.players.get ⟨mathRandomFloor rng.pick act.players.length, hidx⟩
      ∈ act.players := List.get_mem _ _ _
  have hclt := hvalid _ hcmem
  have hget2 : g.players.get?
      (act.players.get ⟨mathRandomFloor rng.pick act.players.length, hidx⟩) =
      some (g.players.get ⟨_, hclt⟩) := List.get?_eq_get hclt
  refine ⟨_, hcmem, g.players.get ⟨_, hclt⟩, hget2, ?_⟩
  simp only [react, hact]
  unfold reactAct
  rw [htype]
  rw [if_neg (by decide : ¬("choosePlayer" = "lobby"))]
  rw [if_neg (by decide : ¬("choosePlayer" = "nightRound"))]
  rw [if_pos (rfl : "choosePlayer" = "choosePlayer")]
  simp only [hget, hget2]

/-- Witness for C8 at a concrete three-candidate prompt. -/
theorem C8_choose_in_list_witness :
    (gChoose.action = some actChoose ∧ actChoose.type = "choosePlayer" ∧
      actChoose.players ≠ [] ∧
      ∀ c ∈ actChoose.players, c < gChoose.players.length) ∧
    (∃ c ∈ actChoose.players, ∃ p, gChoose.players.get? c = some p ∧
      react gChoose 0 rngPick7 = Except.ok ⟨some (Reply.str p.id), []⟩) :=
  ⟨⟨rfl, rfl, by decide, by decide⟩,
    C8_choose_in_list gChoose 0 rngPick7 actChoose rfl rfl (by decide) (by decide)⟩

/-- While updates keep arriving strictly within the debounce delay of the
previous pending deadline, no timer fires: the run evaluates nothing and
ends with only the last arrival pending. -/
theorem runBurst_chain (rest : List (Nat × GameState)) : ∀ (e : Nat × GameState),
    List.Chain (fun a b => a.1 ≤ b.1 ∧ b.1 < a.1 + ACTION_DELAY) e rest →
    runBurst (some (e.1 + ACTION_DELAY, e.2)) rest =
      ([], some ((List.getLastD rest e).1 + ACTION_DELAY,
        (List.getLastD rest e).2)) := by
  induction rest with
  | nil => intro e _; rfl
  | cons u rest ih =>
    intro e hch
    rw [List.chain_cons] at hch
    obtain ⟨⟨h1, h2⟩, hch2⟩ := hch
    have hnot : ¬(e.1 + ACTION_DELAY ≤ u.1) := by omega
    simp only [runBurst, fireDue, if_neg hnot, onUpdate, List.getLastD_cons]
    rw [ih u hch2]
    simp

/-- Claim C1: over a burst of snapshots each arriving less than the debounce
delay after the previous one, the decision policy is invoked exactly once,
on the last snapshot: every earlier timer is cancelled by replacement
before it can fire and a cancelled timer never runs. -/
theorem C1_burst_single_eval (e : Nat × GameState) (rest : List (Nat × GameState))
    (hchain : List.Chain (fun a b => a.1 ≤ b.1 ∧ b.1 < a.1 + ACTION_DELAY) e rest) :
    evaluated (e :: rest) = [(List.getLastD rest e).2] := by
  unfold evaluated
  simp only [runBurst, fireDue, onUpdate]
  rw [runBurst_chain rest e hchain]
  simp [flushPending]

/-- Witness for C1: two snapshots 500 ms apart produce one evaluation, of
the second snapshot. -/
theorem C1_burst_single_eval_witness :
    List.Chain (fun a b => a.1 ≤ b.1 ∧ b.1 < a.1 + ACTION_DELAY)
      ((0 : Nat), gA) [((500 : Nat), gB)] ∧
    evaluated [(0, gA), (500, gB)] = [gB] := by
  have hch : List.Chain (fun a b => a.1 ≤ b.1 ∧ b.1 < a.1 + ACTION_DELAY)
      ((0 : Nat), gA) [((500 : Nat), gB)] :=
    List.Chain.cons (by decide) List.Chain.nil
  exact ⟨hch, C1_burst_single_eval ((0 : Nat), gA) [((500 : Nat), gB)] hch⟩

/-- The unanchored test succeeds exactly when some window of four
consecutive characters, starting at any position, is all uppercase. -/
theorem hasFourUpperRun_iff (l : List Char) :
    hasFourUpperRun l = true ↔
      ∃ i, i + 4 ≤ l.length ∧
        ∀ j, j < 4 → isUpperChar (l.getD (i + j) 'a') = true := by
  induction l with
  | nil =>
    constructor
    · intro h; simp [hasFourUpperRun] at h
    · rintro ⟨i, hlen, _⟩; simp only [List.length_nil] at hlen; omega
  | cons a t ih =>
    cases t with
    | nil =>
      constructor
      · intro h; simp [hasFourUpperRun] at h
      · rintro ⟨i, hlen, _⟩
        simp only [List.length_cons, List.length_nil] at hlen; omega
    | cons b t2 =>
      cases t2 with
      | nil =>
        constructor
        · intro h; simp [hasFourUpperRun] at h
        · rintro ⟨i, hlen, _⟩
          simp only [List.length_cons, List.length_nil] at hlen; omega
      | cons c t3 =>
        cases t3 with
        | nil =>
          constructor
          · intro h; simp [hasFourUpperRun] at h
          · rintro ⟨i, hlen, _⟩
            simp only [List.length_cons, List.length_nil] at hlen; omega
        | cons d rest =>
          constructor
          · intro h
            simp only [hasFourUpperRun, Bool.or_eq_true, Bool.and_eq_true] at h
            rcases h with ⟨⟨⟨ha, hb⟩, hc⟩, hd⟩ | hr
            · refine ⟨0, by simp only [List.length_cons]; omega, ?_⟩
              intro j hj
              interval_cases j
              · exact ha
              · exact hb
              · exact hc
              · exact hd
            · obtain ⟨i, hlen, hup⟩ := ih.mp hr
              refine ⟨i + 1, ?_, ?_⟩
              · simp only [List.length_cons] at hlen ⊢; omega
              · intro j hj
                have hx := hup j hj
                rw [show i + 1 + j = (i + j) + 1 by omega]
                exact hx
          · rintro ⟨i, hlen, hup⟩
            cases i with
            | zero =>
              have ha : isUpperChar a = true := hup 0 (by omega)
              have hb : isUpperChar b = true := hup 1 (by omega)
              have hc : isUpperChar c = true := hup 2 (by omega)
              have hd : isUpperChar d = true := hup 3 (by omega)
              simp [hasFourUpperRun, ha, hb, hc, hd]
            | succ i2 =>
              have hrec : hasFourUpperRun (b :: c :: d :: rest) = true := by
                apply ih.mpr
                refine ⟨i2, ?_, ?_⟩
                · simp only [List.length_cons] at hlen ⊢; omega
                · intro j hj
                  have hx := hup j hj
                  rw [show i2 + 1 + j = (i2 + j) + 1 by omega] at hx
                  exact hx
              simp [hasFourUpperRun, hrec]

/-- Claim C5, counterexample: on the identifier xABCD, which does not match
the anchored pattern the claim states, the bootstrapper nevertheless spawns
the pool, because the test in the code is unanchored. -/
theorem C5_counterexample :
    specAnchoredFourUpper "xABCD" = false ∧ mainRun "xABCD" ≠ none := by
  constructor
  · decide
  · decide

/-- Claim C5 as amended: the bootstrapper aborts before spawning anything
exactly when no window of four consecutive uppercase letters occurs
anywhere in the identifier; otherwise it spawns one agent per roster name,
with ordinal indices and a 200 ms stagger between spawns. -/
theorem C5_regex_unanchored (gid : String) :
    (mainRun gid = none ↔
      ¬ ∃ i, i + 4 ≤ gid.data.length ∧
        ∀ j, j < 4 → isUpperChar (gid.data.getD (i + j) 'a') = true) ∧
    (mainRun gid = none ∨
      mainRun gid = some [("ALEX", 0, 0), ("BOB", 1, 200), ("CHARLIE", 2, 400),
        ("DAVID", 3, 600), ("ED", 4, 800), ("FRED", 5, 1000),
        ("GEORGE", 6, 1200), ("HARRY", 7, 1400), ("IJ", 8, 1600)]) := by
  constructor
  · rw [← hasFourUpperRun_iff]
    unfold mainRun regexTestFourUpper
    by_cases h : hasFourUpperRun gid.data = true
    · simp [h]
    · simp [h]
  · unfold mainRun
    by_cases h : regexTestFourUpper gid = true
    · right; rw [if_pos h]; rfl
    · left; rw [if_neg h]

/-- Witness for C5 as amended, at the identifier ABCD. -/
theorem C5_regex_unanchored_witness :
    ((mainRun "ABCD" = none ↔
      ¬ ∃ i, i + 4 ≤ "ABCD".data.length ∧
        ∀ j, j < 4 → isUpperChar ("ABCD".data.getD (i + j) 'a') = true) ∧
    (mainRun "ABCD" = none ∨
      mainRun "ABCD" = some [("ALEX", 0, 0), ("BOB", 1, 200), ("CHARLIE", 2, 400),
        ("DAVID", 3, 600), ("ED", 4, 800), ("FRED", 5, 1000),
        ("GEORGE", 6, 1200), ("HARRY", 7, 1400), ("IJ", 8, 1600)])) :=
  C5_regex_unanchored "ABCD"
